import Mathlib

/-
Shallow embedding of the terminews CLI (src/index.js).

The program builds HTTP GET requests with the axios library, renders JSON
response data to the console with console.log, and reports failures through a
throwError helper. The embedding models:
  - the request each gateway function builds (URL and query parameters),
    together with the default axios parameter serialization (parameters whose
    value is undefined are dropped, arrays get a bracketed key per element,
    NaN stringifies to NaN, and string values are percent-encoded with the
    axios variant of encodeURIComponent);
  - the console output of the presenters printStories and printSources as a
    list of output lines with the terminal styling stripped (styling is out of
    scope per the spec);
  - the catch handlers of the three commands as functions from the caught
    error value to the produced messages, the spinner state, and whether the
    handler itself faulted (a JavaScript TypeError raised inside the handler).
-/

namespace Terminews

/- Constants from src/index.js lines 9 to 13. The API key falls back to the
built-in default when the API_KEY environment variable is absent; the claims
never inspect the key value, so the default is used here. -/

def NEWS_API_URL : String := "https://newsapi.org"

def TOP_HEADLINES_URL : String := NEWS_API_URL ++ "/v2/top-headlines"

def SOURCES_URL : String := NEWS_API_URL ++ "/v2/sources"

def SEARCH_URL : String := NEWS_API_URL ++ "/v2/everything"

def API_KEY : String := "72ef587891b7421ab53dd1711732e327"

/- Percent encoding. encodeURIComponent leaves the unreserved characters
(letters, digits, and - _ . ! ~ * apostrophe left-paren right-paren,
identified by code point below) unchanged and encodes every other character
as %XX per UTF-8 byte, with uppercase hex digits. -/

def hexDigit (n : Nat) : Char :=
  if n < 10 then Char.ofNat (48 + n) else Char.ofNat (55 + n)

def isUnreservedCode (n : Nat) : Bool :=
  decide ((48 ≤ n ∧ n ≤ 57) ∨ (65 ≤ n ∧ n ≤ 90) ∨ (97 ≤ n ∧ n ≤ 122) ∨
    n = 45 ∨ n = 95 ∨ n = 46 ∨ n = 33 ∨ n = 126 ∨ n = 42 ∨ n = 39 ∨ n = 40 ∨ n = 41)

def utf8Bytes (n : Nat) : List Nat :=
  if n < 128 then [n]
  else if n < 2048 then [192 + n / 64, 128 + n % 64]
  else if n < 65536 then [224 + n / 4096, 128 + (n / 64) % 64, 128 + n % 64]
  else [240 + n / 262144, 128 + (n / 4096) % 64, 128 + (n / 64) % 64, 128 + n % 64]

def pctByte (b : Nat) : String :=
  String.mk [Char.ofNat 37, hexDigit (b / 16), hexDigit (b % 16)]

def encodeURIComponent (s : String) : String :=
  String.join (s.data.map (fun c =>
    if isUnreservedCode c.toNat then String.mk [c]
    else String.join ((utf8Bytes c.toNat).map pctByte)))

/- The axios helper buildURL encodes keys and values with encodeURIComponent
and then restores the characters : $ , [ ] and turns %20 into a plus sign.
Stated per character: unreserved characters and : $ , [ ] pass through, a
space becomes a plus, everything else is percent-encoded per UTF-8 byte. -/

def axiosEncodeChar (c : Char) : String :=
  if isUnreservedCode c.toNat then String.mk [c]
  else if c.toNat = 32 then String.mk [Char.ofNat 43]
  else if c.toNat = 58 ∨ c.toNat = 36 ∨ c.toNat = 44 ∨ c.toNat = 91 ∨ c.toNat = 93 then
    String.mk [c]
  else String.join ((utf8Bytes c.toNat).map pctByte)

def axiosEncode (s : String) : String :=
  String.join (s.data.map axiosEncodeChar)

/- Query parameter values as the JavaScript code builds them: a string, a
number, NaN (the result of Math.min over a non-number), an array of strings,
or undefined (an object key whose value is undefined). -/

inductive PValue where
  | str (s : String)
  | numv (n : Int)
  | nan
  | arr (xs : List String)
  | undef
deriving DecidableEq

structure Request where
  url : String
  params : List (String × PValue)
deriving DecidableEq

/- Default axios parameter serialization (helpers/buildURL.js): a null or
undefined value is skipped entirely; an array value contributes one part per
element under the key with brackets appended; any other value is stringified
(String(NaN) is the three letters NaN) and encoded. -/

def serializeParam : String × PValue → List (String × String)
  | (_, PValue.undef) => []
  | (k, PValue.str s) => [(axiosEncode k, axiosEncode s)]
  | (k, PValue.numv n) => [(axiosEncode k, axiosEncode (toString n))]
  | (k, PValue.nan) => [(axiosEncode k, axiosEncode ("NaN"))]
  | (k, PValue.arr xs) => xs.map (fun x => (axiosEncode (k ++ ("[]")), axiosEncode x))

def serializeParams (ps : List (String × PValue)) : List (String × String) :=
  ps.flatMap serializeParam

/- JavaScript numeric coercion of a string, restricted to the nonnegative
decimal integer literals the limit option documents: such a string coerces to
its value, anything else stands for NaN (none). Wider JavaScript number
syntax (signs, fractions, exponents) never arises for this option. -/

def jsToInt (s : String) : Option Int :=
  if s.data ≠ [] ∧ s.data.all (fun c => decide (48 ≤ c.toNat ∧ c.toNat ≤ 57)) then
    some (Int.ofNat (s.data.foldl (fun n c => n * 10 + (c.toNat - 48)) 0))
  else none

/- Math.min(100, limit) under JavaScript numeric coercion, producing the
pageSize parameter value (src/index.js line 30). The commander library hands
the option value over as a raw string, so limit is an optional string here.
An absent limit is undefined, and Math.min(100, undefined) is NaN; a numeric
string coerces to its integer value and a non-numeric string to NaN. -/

def pageSizeParam (limit : Option String) : PValue :=
  match limit with
  | none => PValue.nan
  | some s =>
    match jsToInt s with
    | some n => PValue.numv (min 100 n)
    | none => PValue.nan

/- getLatestStories (src/index.js lines 24 to 35): the single request it
issues. The response handling (returning stories.data.articles) carries no
logic and is not modelled. -/

def getLatestStories (source : String) (limit : Option String) : Request :=
  { url := TOP_HEADLINES_URL
    params := [("apiKey", PValue.str API_KEY),
               ("sources", PValue.arr [source]),
               ("pageSize", pageSizeParam limit)] }

/- getNewsSources (src/index.js lines 45 to 55): the single request it
issues. The shorthand object field category holds the raw option value, which
is undefined when the option was not given. -/

def getNewsSources (category : Option String) : Request :=
  { url := SOURCES_URL
    params := [("apiKey", PValue.str API_KEY),
               ("category", match category with
                 | some c => PValue.str c
                 | none => PValue.undef)] }

/- searchStories (src/index.js lines 66 to 75): the single request it issues.
The code applies encodeURIComponent to the search term itself when building
the q parameter. -/

def searchStories (searchTerm : String) : Request :=
  { url := SEARCH_URL
    params := [("apiKey", PValue.str API_KEY),
               ("q", PValue.str (encodeURIComponent searchTerm))] }

/- Category choices enumerated in the sources command option description
(src/index.js line 186). -/

def categoryChoices : List String :=
  ["business", "entertainment", "gaming", "general", "music", "politics",
   "science-and-nature", "sport", "technology"]

/- Console output. Each console.log call of the presenters contributes one
line; chalk styling is stripped (out of scope per the spec). The published
line of a story block interpolates the default string rendering of
new Date(publishedAt); the constructor keeps the raw timestamp, standing for
the line Published followed by that formatted date. -/

inductive OutLine where
  | text (s : String)
  | published (timestamp : String)
deriving DecidableEq

/- JavaScript string interpolation of a possibly-undefined value: undefined
renders as the word undefined. -/

def jsUndef : Option String → String
  | some s => s
  | none => "undefined"

structure Article where
  author : Option String
  title : String
  description : Option String
  url : String
  publishedAt : String
deriving DecidableEq

structure Source where
  id : String
  name : String
  description : String
  url : String
  category : String
  language : String
  country : String
deriving DecidableEq

def noResultsMsg : String := "\n No results found."

/- The per-story lines of printStories (src/index.js lines 90 to 99). -/

def storyBlock (a : Article) : List OutLine :=
  [OutLine.text a.title,
   OutLine.text (("by ") ++ jsUndef a.author),
   OutLine.text (jsUndef a.description),
   OutLine.text (("Link: ") ++ a.url),
   OutLine.published a.publishedAt]

/- printStories (src/index.js lines 84 to 101): on an empty list it prints
the no-results notice and returns, otherwise one block per story via
forEach. -/

def printStories (stories : List Article) : List OutLine :=
  if stories.length = 0 then [OutLine.text noResultsMsg]
  else stories.flatMap storyBlock

/- The per-source lines of printSources (src/index.js lines 113 to 125). -/

def sourceBlock (s : Source) : List OutLine :=
  [OutLine.text s.name,
   OutLine.text (("Fetch Id (use this to get stories): ") ++ s.id),
   OutLine.text s.description,
   OutLine.text (("Website URL: ") ++ s.url),
   OutLine.text (("Language ") ++ s.language),
   OutLine.text (("Country ") ++ s.country ++ (" \n"))]

/- printSources (src/index.js lines 112 to 127): forEach over the sources,
with no empty-input check. -/

def printSources (sources : List Source) : List OutLine :=
  sources.flatMap sourceBlock

/- Error handling. An axios rejection value carries a response field exactly
when the server answered with a non-2xx status; on a network failure the
response field is undefined. Only the status is ever read. -/

structure AxiosError where
  response : Option Nat
deriving DecidableEq

/- Outcome of running one catch handler: the error lines it printed, whether
the spinner ended up stopped, and whether the handler itself faulted with a
TypeError before completing. -/

structure ErrorOutput where
  messages : List String
  spinnerStopped : Bool
  faulted : Bool
deriving DecidableEq

def fetchErrorMsg : String :=
  "There has been a problem fetching your news stories. Please try again later."

def sourcesErrorMsg : String :=
  "There has been a problem fetching your news sources. Please try again later."

def searchErrorMsg : String :=
  "There has been a problem executing your search. Please try again later."

def rateLimitMsg : String :=
  "You have hit the rate limit on the News API. Please try again later."

/- throwError (src/index.js lines 139 to 142; the source name is a reserved
word here, hence the Fn suffix) prints the message and then
calls spinner.stop(). When the caller passed no spinner argument the second
step is a method call on undefined: the message is already printed but the
handler faults and the spinner is never stopped. -/

def throwErrorFn (error : String) (spinnerPresent : Bool) : ErrorOutput :=
  { messages := [error], spinnerStopped := spinnerPresent, faulted := !spinnerPresent }

/- Catch handler of the fetch command (src/index.js lines 172 to 177):
throwError with the generic message and the spinner, for every error. -/

def fetchCatch (_err : AxiosError) : ErrorOutput :=
  throwErrorFn fetchErrorMsg true

/- Catch handler of the sources command (src/index.js lines 201 to 206): it
calls throwError without the spinner argument and only afterwards calls
spinner.stop() itself; the fault inside throwError aborts the handler before
that call runs. The handler binds no error parameter. -/

def sourcesCatch : ErrorOutput :=
  let r := throwErrorFn sourcesErrorMsg false
  if r.faulted then r else { r with spinnerStopped := true }

/- Catch handler of the search command (src/index.js lines 225 to 237): it
reads err.response.status unconditionally. When the error carries no
response this access raises a TypeError before any message is printed;
otherwise status 403 selects the rate limit message and anything else the
generic search message, each through throwError with the spinner. -/

def searchCatch (err : AxiosError) : ErrorOutput :=
  match err.response with
  | none => { messages := [], spinnerStopped := false, faulted := true }
  | some status =>
    if status = 403 then throwErrorFn rateLimitMsg true
    else throwErrorFn searchErrorMsg true

/- Success handler of the fetch command (src/index.js lines 166 to 171) as
the ordered list of its observable effects: stop the spinner, log the raw
limit option value (the word undefined when no limit was given), then the
presenter output. -/

inductive FetchEvent where
  | stopSpinner
  | out (line : OutLine)
deriving DecidableEq

def fetchThenHandler (limit : Option String) (stories : List Article) : List FetchEvent :=
  [FetchEvent.stopSpinner] ++ [FetchEvent.out (OutLine.text (jsUndef limit))] ++
    (printStories stories).map FetchEvent.out

/- Command router (src/index.js lines 145 to 245). The three registered
commands dispatch on the first argument word (argv here excludes the node
binary and the script path, as commander strips them); with an empty argv no
action runs, program.args is empty, and program.help() prints the usage text
and exits with code 0 - the dispatch and help behaviour of the commander
library follows its documented semantics. The result records whether help
was shown, the exit code, and the one request the selected action issues
(none when no action runs, so no network call happens). Rejection of a
missing required argument by the library is not modelled; no claim touches
it. -/

def findOpt (short long : String) : List String → Option String
  | [] => none
  | [_] => none
  | flag :: value :: rest =>
    if flag = short ∨ flag = long then some value
    else findOpt short long (value :: rest)

structure ProgramResult where
  helpShown : Bool
  exitCode : Nat
  request : Option Request
deriving DecidableEq

def runProgram (argv : List String) : ProgramResult :=
  match argv with
  | [] => { helpShown := true, exitCode := 0, request := none }
  | "fetch" :: source :: opts =>
    { helpShown := false, exitCode := 0,
      request := some (getLatestStories source (findOpt ("-l") ("--limit") opts)) }
  | "sources" :: opts =>
    { helpShown := false, exitCode := 0,
      request := some (getNewsSources (findOpt ("-c") ("--category") opts)) }
  | "search" :: term :: _ =>
    { helpShown := false, exitCode := 0, request := some (searchStories term) }
  | _ => { helpShown := false, exitCode := 0, request := none }

end Terminews

namespace Terminews

/-- Claim C1, counterexample: with no limit given, the request still carries a
pageSize parameter (serialized as NaN); it is not omitted. -/
theorem getLatestStories_noLimit_pageSize_not_omitted :
    (serializeParams (getLatestStories ("bbc-news") none).params).lookup ("pageSize") =
      some ("NaN") ∧
    ¬ (serializeParams (getLatestStories ("bbc-news") none).params).lookup ("pageSize") = none := by
  refine ⟨rfl, ?_⟩
  intro h
  have h2 : (some ("NaN") : Option String) = none := h
  exact Option.noConfusion h2

/-- Claim C1, amended: with a decimal-integer limit the single request carries
pageSize = min(100, limit), and exactly one pageSize parameter is built; with
no limit the request carries pageSize = NaN (Math.min of 100 and undefined),
serialized as the string NaN, rather than omitting the parameter. -/
theorem getLatestStories_pageSize (source lim : String) (n : Int)
    (h : jsToInt lim = some n) :
    ((getLatestStories source (some lim)).params).lookup ("pageSize") =
      some (PValue.numv (min 100 n)) ∧
    (((getLatestStories source (some lim)).params).filter
        (fun p => p.fst == ("pageSize"))).length = 1 ∧
    ((getLatestStories source none).params).lookup ("pageSize") = some PValue.nan ∧
    (serializeParams (getLatestStories source none).params).lookup ("pageSize") =
      some ("NaN") := by
  have hp : pageSizeParam (some lim) = PValue.numv (min 100 n) := by
    simp [pageSizeParam, h]
  refine ⟨?_, rfl, rfl, rfl⟩
  show some (pageSizeParam (some lim)) = some (PValue.numv (min 100 n))
  rw [hp]

/-- Claim C1, witness: the amended theorem applied at source bbc-news and
limit 50. -/
theorem getLatestStories_pageSize_witness :
    jsToInt ("50") = some 50 ∧
    (((getLatestStories ("bbc-news") (some ("50"))).params).lookup ("pageSize") =
        some (PValue.numv (min 100 50)) ∧
      (((getLatestStories ("bbc-news") (some ("50"))).params).filter
          (fun p => p.fst == ("pageSize"))).length = 1 ∧
      ((getLatestStories ("bbc-news") none).params).lookup ("pageSize") = some PValue.nan ∧
      (serializeParams (getLatestStories ("bbc-news") none).params).lookup ("pageSize") =
        some ("NaN")) :=
  ⟨by decide, getLatestStories_pageSize ("bbc-news") ("50") 50 (by decide)⟩

/-- Claim C2, counterexample: on an empty input the source renderer produces
an empty block, not the no-results notice. -/
theorem printSources_empty_no_notice :
    printSources [] = [] ∧ printSources [] ≠ [OutLine.text noResultsMsg] := by
  refine ⟨rfl, ?_⟩
  intro h
  have h2 : ([] : List OutLine) = [OutLine.text noResultsMsg] := h
  exact List.noConfusion h2

/-- Claim C2, amended: on an empty input the article renderer produces exactly
the no-results notice, while the source renderer produces no output at all. -/
theorem print_empty_rendering :
    printStories [] = [OutLine.text noResultsMsg] ∧ printSources [] = [] :=
  ⟨rfl, rfl⟩

/-- Claim C3, counterexample: a search failure with no response (network
failure) renders no message at all - the handler faults - rather than the
generic search failure message. -/
theorem searchCatch_no_response_counterexample :
    (searchCatch { response := none }).messages ≠ [searchErrorMsg] ∧
    (searchCatch { response := none }).faulted = true := by
  refine ⟨?_, rfl⟩
  intro h
  have h2 : ([] : List String) = [searchErrorMsg] := h
  exact List.noConfusion h2

/-- Claim C3, amended: a search failure carrying HTTP status 403 renders the
rate-limit message and a failure carrying any other status renders the
generic search message; a failure with no response renders no message, the
handler faulting on the response field access. -/
theorem searchCatch_message_by_status (err : AxiosError) :
    (searchCatch err).messages =
      (match err.response with
       | none => []
       | some status => [if status = 403 then rateLimitMsg else searchErrorMsg]) ∧
    (searchCatch err).faulted = err.response.isNone := by
  obtain ⟨_ | status⟩ := err
  · exact ⟨rfl, rfl⟩
  · constructor
    · by_cases h : status = 403 <;> simp [searchCatch, throwErrorFn, h]
    · by_cases h : status = 403 <;> simp [searchCatch, throwErrorFn, h]

/-- Claim C4: evaluation of the three catch paths. The sources path prints its
message but faults inside throwError (called without the spinner) and leaves
the spinner running; the search path on a no-response error prints nothing
and leaves the spinner running; the fetch path prints the generic message for
every error, with no network-specific message. -/
theorem errorReporter_paths_eval :
    sourcesCatch = { messages := [sourcesErrorMsg], spinnerStopped := false, faulted := true } ∧
    searchCatch { response := none } =
      { messages := [], spinnerStopped := false, faulted := true } ∧
    fetchCatch { response := none } =
      { messages := [fetchErrorMsg], spinnerStopped := true, faulted := false } :=
  ⟨rfl, rfl, rfl⟩

/-- Claim C5: the q parameter the search request builds is exactly the
percent-encoding (encodeURIComponent) of the search term; the serialized
query then carries the axios encoding of that already-encoded value. -/
theorem searchStories_q_param (term : String) :
    ((searchStories term).params).lookup ("q") =
      some (PValue.str (encodeURIComponent term)) ∧
    (serializeParams (searchStories term).params).lookup ("q") =
      some (axiosEncode (encodeURIComponent term)) :=
  ⟨rfl, rfl⟩

/-- Claim C6: the sources request carries the category value verbatim when it
is set and drops the parameter entirely when it is unset; every documented
category choice passes through the URL serialization unchanged. -/
theorem getNewsSources_category_param (category : Option String) :
    ((getNewsSources category).params).lookup ("category") =
      some (match category with
            | some c => PValue.str c
            | none => PValue.undef) ∧
    (serializeParams (getNewsSources category).params).lookup ("category") =
      category.map axiosEncode ∧
    categoryChoices.all (fun c => axiosEncode c == c) = true := by
  cases category <;> exact ⟨rfl, rfl, rfl⟩

/-- Claim C7: invoked with no subcommand, the program shows the help text,
issues no request, and exits with code 0. -/
theorem no_subcommand_shows_help :
    runProgram [] = { helpShown := true, exitCode := 0, request := none } ∧
    (runProgram []).request = none ∧ (runProgram []).exitCode = 0 :=
  ⟨rfl, rfl, rfl⟩

/-- Claim C8: on a two-article response the article renderer produces exactly
the block of the first article followed by the block of the second, and every
story block contains the title, the author line, the link line, and the
formatted publish date line. -/
theorem printStories_two_articles (a b : Article) :
    printStories [a, b] = storyBlock a ++ storyBlock b ∧
    (∀ x : Article,
      OutLine.text x.title ∈ storyBlock x ∧
      OutLine.text (("by ") ++ jsUndef x.author) ∈ storyBlock x ∧
      OutLine.text (("Link: ") ++ x.url) ∈ storyBlock x ∧
      OutLine.published x.publishedAt ∈ storyBlock x) := by
  constructor
  · show storyBlock a ++ (storyBlock b ++ []) = storyBlock a ++ storyBlock b
    rw [List.append_nil]
  · intro x
    refine ⟨?_, ?_, ?_, ?_⟩ <;> simp [storyBlock]

/-- Claim C9: the search catch handler completes without faulting exactly when
the error carries a response, and it prints one message in that case and none
otherwise. -/
theorem searchCatch_requires_response (err : AxiosError) :
    (searchCatch err).faulted = err.response.isNone ∧
    (searchCatch err).messages.length = (if err.response.isSome then 1 else 0) := by
  obtain ⟨_ | status⟩ := err
  · exact ⟨rfl, rfl⟩
  · constructor
    · by_cases h : status = 403 <;> simp [searchCatch, throwErrorFn, h]
    · by_cases h : status = 403 <;> simp [searchCatch, throwErrorFn, h]

/-- Claim C10: the fetch success handler stops the spinner, then logs the raw
limit option value (the word undefined when absent), then the presenter
blocks; in particular its output is never just the presenter rendering. -/
theorem fetch_success_logs_raw_limit (limit : Option String) (stories : List Article) :
    fetchThenHandler limit stories =
      FetchEvent.stopSpinner :: FetchEvent.out (OutLine.text (jsUndef limit)) ::
        (printStories stories).map FetchEvent.out ∧
    fetchThenHandler limit stories ≠ (printStories stories).map FetchEvent.out := by
  refine ⟨rfl, ?_⟩
  intro h
  have hl := congrArg List.length h
  simp only [fetchThenHandler, List.length_append, List.length_map,
    List.length_cons, List.length_singleton] at hl
  omega

end Terminews
